import Mathlib

/-!
Shallow embedding of `readme_gen.py` (GitHub-profile banner generator).

The script has three parts that the specification talks about:

* an SVG/XML template renderer (`find_and_replace`, `justify_format`,
  `svg_overwrite`) which mutates an element tree in place,
* a stats fetcher (`simple_request`, `graph_repos_stars`, ...) over a
  GraphQL endpoint,
* an age formatter (`uptime_string`) built on `dateutil.relativedelta`.

Python values that flow into the renderer are dynamically typed (ints,
strings, and — through the `contrib_data=_=...,0` chained assignment in
`__main__` — a pair), so they are embedded as the inductive `PyVal`.
Network responses are embedded as explicit records passed to the
functions that, in the Python code, perform the requests themselves.
-/

/-- Dynamically-typed Python value flowing through the renderer:
an `int`, a `str`, or a 2-tuple (the only shapes the script produces). -/
inductive PyVal where
  | vInt (n : Int)
  | vStr (s : String)
  | vPair (a b : PyVal)

/-- Python `repr` for the values above: ints print bare, strings print
quoted, tuples print as `(reprA, reprB)`. -/
def pyRepr : PyVal → String
  | .vInt n => toString n
  | .vStr s => "'" ++ s ++ "'"
  | .vPair a b => "(" ++ pyRepr a ++ ", " ++ pyRepr b ++ ")"

/-- Python `str`: identity on strings, `repr` otherwise (tuples stringify
their components with `repr`). -/
def pyStr : PyVal → String
  | .vStr s => s
  | .vInt n => toString n
  | .vPair a b => pyRepr (.vPair a b)

/-- Insert a comma after every three characters of a reversed digit list,
as long as more digits follow (the helper behind `f"{n:,}"`). -/
def groupRevAux : List Char → List Char
  | a :: b :: c :: d :: rest => a :: b :: c :: ',' :: groupRevAux (d :: rest)
  | l => l

/-- Python's `f"{n:,}"`: decimal digits grouped in threes from the right
with `,`, the sign (if any) left outside the grouping. -/
def intComma (n : Int) : String :=
  (if n < 0 then "-" else "") ++ String.mk (groupRevAux (Nat.repr n.natAbs).data.reverse).reverse

/-- Line 81 of `readme_gen.py`:
`if isinstance(new_text,int): new_text=f"{new_text:,}"` — ints are
replaced by their thousands-separated rendering, everything else is kept. -/
def fmtVal : PyVal → PyVal
  | .vInt n => .vStr (intComma n)
  | v => v

/-- Lines 84–85 of `readme_gen.py`:
`dot_map={0:'',1:' ',2:'. '}; dot_map.get(just_len,' '+'.'*just_len+' ')`. -/
def dotString (n : Nat) : String :=
  match n with
  | 0 => ""
  | 1 => " "
  | 2 => ". "
  | _ => " " ++ String.mk (List.replicate n '.') ++ " "

/-- Line 83 of `readme_gen.py`: `just_len=max(0,length-len(str(new_text)))`,
taking the already-formatted text. -/
def justLen (length : Nat) (s : String) : Nat :=
  (max 0 ((length : Int) - (s.length : Int))).toNat

/-- An lxml element: attribute list, text content, child elements. -/
inductive Elem where
  | mk (attrs : List (String × String)) (text : String) (children : List Elem)

/-- Attribute list of an element. -/
def Elem.attrs : Elem → List (String × String)
  | .mk a _ _ => a

/-- Text content of an element. -/
def Elem.text : Elem → String
  | .mk _ t _ => t

/-- Child elements of an element. -/
def Elem.children : Elem → List Elem
  | .mk _ _ c => c

/-- `el.set(k, v)`: overwrite the binding for `k` if present, else append it. -/
def setPair (k v : String) : List (String × String) → List (String × String)
  | [] => [(k, v)]
  | (k0, v0) :: rest => if k0 = k then (k, v) :: rest else (k0, v0) :: setPair k v rest

/-- Lines 75–77 of `readme_gen.py`, applied to the matched element `el`
whose parent's `x` attribute is `px`:
`el.text=str(new_text); parent_x=el.getparent().get("x"); if parent_x: el.set("x", parent_x)`.
Python truthiness makes an absent or empty `parent_x` a no-op. -/
def applyRepl (v : PyVal) (px : Option String) : Elem → Elem
  | .mk a _ ch =>
    match px with
    | some s => if s = "" then .mk a (pyStr v) ch else .mk (setPair "x" s a) (pyStr v) ch
    | none => .mk a (pyStr v) ch

/-- Core of `root.find(".//*[@id='...'])` followed by the in-place update of
lines 75–77: rewrite the first element, in document (pre-)order among the
descendants being traversed, whose `id` attribute equals `eid`. `px` is the
`x` attribute of the parent of the elements in the list. Returns the
rewritten list and whether a match was found. -/
def farL (eid : String) (v : PyVal) : Option String → List Elem → List Elem × Bool
  | _, [] => ([], false)
  | px, Elem.mk a t ch :: cs =>
    if a.lookup "id" == some eid then
      (applyRepl v px (.mk a t ch) :: cs, true)
    else
      match farL eid v (a.lookup "x") ch with
      | (ch', true) => (Elem.mk a t ch' :: cs, true)
      | (_, false) =>
        let r := farL eid v px cs
        (Elem.mk a t ch :: r.1, r.2)
termination_by _ l => sizeOf l

/-- Lines 72–77 of `readme_gen.py`. `root.find(".//*[@id=...])` searches the
strict descendants of `root` in document order; if no element matches, the
function returns with the tree untouched. -/
def find_and_replace (root : Elem) (eid : String) (v : PyVal) : Elem :=
  match root with
  | .mk a t ch => .mk a t (farL eid v (a.lookup "x") ch).1

/-- Lines 80–86 of `readme_gen.py`: format ints with thousands separators,
write the value under `eid`, compute the padding figure from the formatted
text, and write the dot-leader under `eid ++ "_dots"`. -/
def justify_format (root : Elem) (eid : String) (v : PyVal) (length : Nat := 0) : Elem :=
  let v := fmtVal v
  let root := find_and_replace root eid v
  let just_len := justLen length (pyStr v)
  find_and_replace root (eid ++ "_dots") (.vStr (dotString just_len))

/-- Lines 89–101 of `readme_gen.py` (without the file I/O): the nine labeled
substitutions with their fixed padding widths. `loc` is the
`[added, deleted, net]` triple; the script writes `loc[2]`, `loc[0]`,
`loc[1]` in that order. -/
def svg_overwrite (root : Elem) (age comm star repo contrib follow : PyVal)
    (loc : PyVal × PyVal × PyVal) : Elem :=
  let root := justify_format root "age_data" age
  let root := justify_format root "commit_data" comm 22
  let root := justify_format root "star_data" star 14
  let root := justify_format root "repo_data" repo 6
  let root := justify_format root "contrib_data" contrib
  let root := justify_format root "follower_data" follow 10
  let root := justify_format root "loc_data" loc.2.2 9
  let root := justify_format root "loc_add" loc.1
  let root := justify_format root "loc_del" loc.2.1 7
  root

/-- First element with `id = eid` among a list of elements and their
descendants, in document order — the pure observation matching the
traversal order of `root.find(".//*[@id=...])`. -/
def getE (eid : String) : List Elem → Option Elem
  | [] => none
  | Elem.mk a t ch :: cs =>
    if a.lookup "id" == some eid then some (.mk a t ch)
    else
      match getE eid ch with
      | some r => some r
      | none => getE eid cs
termination_by l => sizeOf l

/-- Text of the first descendant of `root` whose `id` is `eid`, if any. -/
def getTextById (root : Elem) (eid : String) : Option String :=
  (getE eid root.children).map Elem.text

/-- `x` attribute of the first descendant of `root` whose `id` is `eid`
(`some none` when the element exists but carries no `x`). -/
def getXById (root : Elem) (eid : String) : Option (Option String) :=
  (getE eid root.children).map (fun e => e.attrs.lookup "x")

/-- First match together with the `x` attribute of its parent: mirrors the
traversal of `farL` but only reports what it found. `px` is the `x`
attribute of the parent of the listed elements. -/
def locateL (eid : String) : Option String → List Elem → Option (Elem × Option String)
  | _, [] => none
  | px, Elem.mk a t ch :: cs =>
    if a.lookup "id" == some eid then some (.mk a t ch, px)
    else
      match locateL eid (a.lookup "x") ch with
      | some r => some r
      | none => locateL eid px cs
termination_by _ l => sizeOf l

/-- First match (and its parent's `x`) among the strict descendants of `root`. -/
def locate (root : Elem) (eid : String) : Option (Elem × Option String) :=
  locateL eid (root.attrs.lookup "x") root.children

/-- An HTTP response as the script observes it: status code and body text. -/
structure Response where
  status_code : Nat
  text : String

/-- Lines 63–66 of `readme_gen.py`, with the network call abstracted into the
`Response` argument: a 200 response is returned as-is, anything else raises
`RuntimeError(f"{fname} failed → {r.status_code}: {r.text}")`. -/
def simple_request (fname : String) (r : Response) : Except String Response :=
  if r.status_code == 200 then Except.ok r
  else Except.error (fname ++ " failed → " ++ toString r.status_code ++ ": " ++ r.text)

/-- One page of the `repositories(first:100,after:$cursor,...)` GraphQL
result: `totalCount`, the per-edge `stargazers.totalCount` values, and the
`pageInfo` fields. -/
structure RepoPage where
  totalCount : Nat
  stargazerCounts : List Nat
  hasNextPage : Bool
  endCursor : Option String

/-- Lines 120–126 of `readme_gen.py`, with the GraphQL backend abstracted as
`pages : Option String → RepoPage` (cursor to returned page of
`data.user.repositories`): issue one request at `cursor` and return
`totalCount` in `repos` mode, else the sum of the page's per-edge
stargazer counts. -/
def graph_repos_stars (pages : Option String → RepoPage) (kind : String)
    (cursor : Option String := none) : Nat :=
  let r := pages cursor
  if kind == "repos" then r.totalCount
  else (r.stargazerCounts).sum

/-- Line 140 of `readme_gen.py`:
`star_data,_ = graph_repos_stars('stars',["OWNER"]),0` — tuple unpacking,
so `star_data` is the scalar star count of the single call (null cursor). -/
def main_star_data (ownerPages : Option String → RepoPage) : Nat :=
  graph_repos_stars ownerPages "stars"

/-- Line 141 of `readme_gen.py`: `repo_data,_ = graph_repos_stars('repos',["OWNER"]),0`. -/
def main_repo_data (ownerPages : Option String → RepoPage) : Nat :=
  graph_repos_stars ownerPages "repos"

/-- Line 142 of `readme_gen.py`:
`contrib_data=_=graph_repos_stars('repos',["OWNER","COLLABORATOR","ORGANIZATION_MEMBER"]),0`
is a chained assignment of the tuple `(count, 0)` to both `contrib_data`
and `_`, so `contrib_data` is the pair, not the scalar. -/
def main_contrib_data (allPages : Option String → RepoPage) : PyVal :=
  .vPair (.vInt (graph_repos_stars allPages "repos")) (.vInt 0)

/-- Lines 140–147 of `readme_gen.py` for a single template: the values bound
in `__main__` (`commit_data=0`, `loc_total=['0','0','0']`) passed to
`svg_overwrite`. -/
def main_render (ownerPages allPages : Option String → RepoPage)
    (followers : Nat) (age : String) (root : Elem) : Elem :=
  svg_overwrite root (.vStr age) (.vInt 0)
    (.vInt (main_star_data ownerPages)) (.vInt (main_repo_data ownerPages))
    (main_contrib_data allPages) (.vInt followers)
    (.vStr "0", .vStr "0", .vStr "0")

/-- A calendar date (year, month, day), the date part of a naive
`datetime.datetime`; the script's `BIRTHDAY` is at midnight and the claims
concern the calendar-unit (year/month/day) components, so times are taken
equal and only dates are modelled. -/
structure Date where
  year : Nat
  month : Nat
  day : Nat
deriving DecidableEq

/-- Gregorian leap-year rule (`calendar.isleap`). -/
def isLeap (y : Nat) : Bool :=
  (y % 4 == 0 && y % 100 != 0) || y % 400 == 0

/-- `calendar.monthrange(y, m)[1]`: number of days of month `m` in year `y`. -/
def daysInMonth (y m : Nat) : Nat :=
  if m = 2 then (if isLeap y then 29 else 28)
  else if m = 4 ∨ m = 6 ∨ m = 9 ∨ m = 11 then 30
  else 31

/-- The date is a real calendar date. -/
def validDate (d : Date) : Bool :=
  1 ≤ d.year && 1 ≤ d.month && d.month ≤ 12 && 1 ≤ d.day && d.day ≤ daysInMonth d.year d.month

/-- Days before month `m` of year `y` (cumulative month lengths). -/
def daysBeforeMonth (y m : Nat) : Nat :=
  (List.range (m - 1)).foldl (fun acc i => acc + daysInMonth y (i + 1)) 0

/-- Proleptic-Gregorian day number of a date (`datetime.date.toordinal`);
differences of this function are the `delta.days` of a `timedelta`
between midnights. -/
def toOrdinal (d : Date) : Nat :=
  365 * (d.year - 1) + (d.year - 1) / 4 - (d.year - 1) / 100 + (d.year - 1) / 400 +
    daysBeforeMonth d.year d.month + d.day

/-- `datetime` comparison (lexicographic on year, month, day). -/
def dtLt (a b : Date) : Bool :=
  decide (a.year < b.year ∨
    (a.year = b.year ∧ (a.month < b.month ∨ (a.month = b.month ∧ a.day < b.day))))

/-- `dateutil`'s `date + relativedelta(months=k)` for `k ≥ 0`: shift the month
index by `k` and clamp the day to the target month's length. -/
def addMonths (d : Date) (k : Nat) : Date :=
  let idx := 12 * d.year + (d.month - 1) + k
  let y := idx / 12
  let m := idx % 12 + 1
  ⟨y, m, min d.day (daysInMonth y m)⟩

/-- The month-correction loop of `relativedelta.__init__` for `dt2 ≤ dt1`:
`while dt1 < dt2 + months: months -= 1`, starting from the raw month-index
difference. (For `dt2 ≤ dt1` the loop can never drive `months` below 0.) -/
def monthsAdjust (dt1 dt2 : Date) : Nat → Nat
  | 0 => 0
  | n + 1 => if dtLt dt1 (addMonths dt2 (n + 1)) then monthsAdjust dt1 dt2 n else n + 1

/-- `relativedelta(dt1, dt2).years/.months/.days` for dates `dt2 ≤ dt1` with
equal times: raw month-index difference, corrected downward while
`dt2 + months` overshoots `dt1`, then split into years and months, with the
left-over days measured from `dt2 + months` to `dt1`. -/
def relativedeltaYMD (dt2 dt1 : Date) : Nat × Nat × Nat :=
  let m0 := (12 * dt1.year + (dt1.month - 1)) - (12 * dt2.year + (dt2.month - 1))
  let months := monthsAdjust dt1 dt2 m0
  let days := toOrdinal dt1 - toOrdinal (addMonths dt2 months)
  (months / 12, months % 12, days)

/-- `'s'*(x!=1)` from line 48 of `readme_gen.py`. -/
def pluralS (n : Nat) : String :=
  if n = 1 then "" else "s"

/-- Lines 46–48 of `readme_gen.py`: the relativedelta between `now` and the
birthday, rendered as
`f"{years} year{...}, {months} month{...}, {days} day{...}"`. -/
def uptime_string (bday now : Date) : String :=
  let d := relativedeltaYMD bday now
  toString d.1 ++ " year" ++ pluralS d.1 ++ ", " ++
    toString d.2.1 ++ " month" ++ pluralS d.2.1 ++ ", " ++
    toString d.2.2 ++ " day" ++ pluralS d.2.2

theorem lookup_setPair (k v k' : String) (l : List (String × String)) :
    (setPair k v l).lookup k' = if k' = k then some v else l.lookup k' := by
  induction l with
  | nil =>
    by_cases h : k' = k
    · simp [setPair, List.lookup_cons, h]
    · simp [setPair, List.lookup_cons, beq_false_of_ne h, h]
  | cons p rest ih =>
    obtain ⟨k0, v0⟩ := p
    by_cases h0 : k0 = k
    · subst h0
      by_cases h : k' = k0
      · simp [setPair, List.lookup_cons, h]
      · simp [setPair, List.lookup_cons, beq_false_of_ne h, h]
    · by_cases h : k' = k0
      · subst h
        simp [setPair, h0, List.lookup_cons, Ne.symm h0]
      · simp [setPair, h0, List.lookup_cons, beq_false_of_ne h, ih]

theorem applyRepl_text (v : PyVal) (px : Option String) (e : Elem) :
    (applyRepl v px e).text = pyStr v := by
  obtain ⟨a, t, ch⟩ := e
  cases px with
  | none => simp [applyRepl, Elem.text]
  | some s =>
    by_cases h : s = "" <;> simp [applyRepl, Elem.text, h]

theorem applyRepl_children (v : PyVal) (px : Option String) (e : Elem) :
    (applyRepl v px e).children = e.children := by
  obtain ⟨a, t, ch⟩ := e
  cases px with
  | none => simp [applyRepl, Elem.children]
  | some s =>
    by_cases h : s = "" <;> simp [applyRepl, Elem.children, h]

theorem applyRepl_lookup_id (v : PyVal) (px : Option String) (e : Elem) :
    (applyRepl v px e).attrs.lookup "id" = e.attrs.lookup "id" := by
  obtain ⟨a, t, ch⟩ := e
  cases px with
  | none => simp [applyRepl, Elem.attrs]
  | some s =>
    by_cases h : s = "" <;>
      simp [applyRepl, Elem.attrs, h, lookup_setPair]

theorem applyRepl_lookup_x (v : PyVal) (s : String) (e : Elem) (hs : s ≠ "") :
    (applyRepl v (some s) e).attrs.lookup "x" = some s := by
  obtain ⟨a, t, ch⟩ := e
  simp [applyRepl, Elem.attrs, hs, lookup_setPair]

theorem locateL_fst (eid : String) (px : Option String) (cs : List Elem) :
    (locateL eid px cs).map Prod.fst = getE eid cs := by
  match cs with
  | [] => simp [locateL, getE]
  | Elem.mk a t ch :: cs' =>
    rw [locateL, getE]
    by_cases hid : (a.lookup "id" == some eid) = true
    · simp [hid]
    · simp only [hid, if_false, Bool.false_eq_true]
      have ih1 := locateL_fst eid (a.lookup "x") ch
      have ih2 := locateL_fst eid px cs'
      cases hch : locateL eid (a.lookup "x") ch with
      | some r =>
        rw [hch] at ih1
        simp at ih1
        simp [← ih1]
      | none =>
        rw [hch] at ih1
        simp at ih1
        rw [← ih1]
        simp
        exact ih2
termination_by sizeOf cs

theorem farL_of_getE_none (eid : String) (v : PyVal) (px : Option String) (cs : List Elem)
    (h : getE eid cs = none) : farL eid v px cs = (cs, false) := by
  match cs with
  | [] => simp [farL]
  | Elem.mk a t ch :: cs' =>
    rw [getE] at h
    rw [farL]
    by_cases hid : (a.lookup "id" == some eid) = true
    · simp [hid] at h
    · simp only [hid, if_false, Bool.false_eq_true] at h ⊢
      cases hch : getE eid ch with
      | some r => rw [hch] at h; simp at h
      | none =>
        rw [hch] at h
        simp only [] at h
        have ih1 := farL_of_getE_none eid v (a.lookup "x") ch hch
        have ih2 := farL_of_getE_none eid v px cs' h
        rw [ih1, ih2]
termination_by sizeOf cs

theorem farL_of_locateL_some (eid : String) (v : PyVal) (px : Option String) (cs : List Elem)
    (e : Elem) (q : Option String) (h : locateL eid px cs = some (e, q)) :
    (farL eid v px cs).2 = true ∧
      getE eid (farL eid v px cs).1 = some (applyRepl v q e) := by
  match cs with
  | [] => simp [locateL] at h
  | Elem.mk a t ch :: cs' =>
    rw [locateL] at h
    rw [farL]
    by_cases hid : (a.lookup "id" == some eid) = true
    · rw [if_pos hid] at h
      rw [if_pos hid]
      injection h with h
      rw [Prod.mk.injEq] at h
      obtain ⟨h1, h2⟩ := h
      subst h1
      subst h2
      refine ⟨rfl, ?_⟩
      rcases hA : applyRepl v px (Elem.mk a t ch) with ⟨a2, t2, ch2⟩
      have hid2 : a2.lookup "id" = a.lookup "id" := by
        have hx := applyRepl_lookup_id v px (Elem.mk a t ch)
        rw [hA] at hx
        simpa [Elem.attrs] using hx
      show getE eid (Elem.mk a2 t2 ch2 :: cs') = some (Elem.mk a2 t2 ch2)
      rw [getE]
      rw [show (a2.lookup "id" == some eid) = true by rw [hid2]; exact hid]
      simp
    · rw [if_neg hid] at h
      rw [if_neg hid]
      cases hch : locateL eid (a.lookup "x") ch with
      | some r =>
        rw [hch] at h
        injection h with h
        subst h
        have ih := farL_of_locateL_some eid v (a.lookup "x") ch e q hch
        rcases hfar : farL eid v (a.lookup "x") ch with ⟨ch', b⟩
        rw [hfar] at ih
        obtain ⟨hb, hget⟩ := ih
        cases b with
        | false => simp at hb
        | true =>
          refine ⟨rfl, ?_⟩
          rw [getE, if_neg hid]
          simp only at hget
          rw [hget]
      | none =>
        rw [hch] at h
        have hnone : getE eid ch = none := by
          have hfst := locateL_fst eid (a.lookup "x") ch
          rw [hch] at hfst
          simpa using hfst.symm
        have hfar0 := farL_of_getE_none eid v (a.lookup "x") ch hnone
        rw [hfar0]
        have ih := farL_of_locateL_some eid v px cs' e q h
        rcases hfar : farL eid v px cs' with ⟨cs2, b2⟩
        rw [hfar] at ih
        obtain ⟨hb, hget⟩ := ih
        cases b2 with
        | false => simp at hb
        | true =>
          refine ⟨rfl, ?_⟩
          rw [getE, if_neg hid, hnone]
          simp only at hget
          exact hget
termination_by sizeOf cs

theorem farL_frame_text (eid eid2 : String) (v : PyVal) (px : Option String) (cs : List Elem)
    (hne : eid2 ≠ eid) :
    (getE eid2 (farL eid v px cs).1).map Elem.text = (getE eid2 cs).map Elem.text := by
  match cs with
  | [] => simp [farL]
  | Elem.mk a t ch :: cs' =>
    rw [farL]
    by_cases hid : (a.lookup "id" == some eid) = true
    · rw [if_pos hid]
      rcases hA : applyRepl v px (Elem.mk a t ch) with ⟨a2, t2, ch2⟩
      have hid2 : a2.lookup "id" = a.lookup "id" := by
        have hx := applyRepl_lookup_id v px (Elem.mk a t ch)
        rw [hA] at hx
        simpa [Elem.attrs] using hx
      have hch2 : ch2 = ch := by
        have hx := applyRepl_children v px (Elem.mk a t ch)
        rw [hA] at hx
        simpa [Elem.children] using hx
      subst hch2
      have haid : a.lookup "id" = some eid := by simpa using hid
      have hf1 : (a2.lookup "id" == some eid2) = false := by
        rw [hid2, haid]
        simpa using fun hcontra => hne hcontra.symm
      have hf2 : (a.lookup "id" == some eid2) = false := by
        rw [haid]
        simpa using fun hcontra => hne hcontra.symm
      show (getE eid2 (Elem.mk a2 t2 ch2 :: cs')).map Elem.text =
        (getE eid2 (Elem.mk a t ch2 :: cs')).map Elem.text
      rw [getE, getE, hf1, hf2]
      simp
    · rw [if_neg hid]
      rcases hfar : farL eid v (a.lookup "x") ch with ⟨ch', b⟩
      have ih1 := farL_frame_text eid eid2 v (a.lookup "x") ch hne
      rw [hfar] at ih1
      cases b with
      | true =>
        show (getE eid2 (Elem.mk a t ch' :: cs')).map Elem.text =
          (getE eid2 (Elem.mk a t ch :: cs')).map Elem.text
        rw [getE, getE]
        by_cases hid2 : (a.lookup "id" == some eid2) = true
        · rw [if_pos hid2, if_pos hid2]
          simp [Elem.text]
        · rw [if_neg hid2, if_neg hid2]
          simp only at ih1
          cases h1 : getE eid2 ch' with
          | some r1 =>
            cases h2 : getE eid2 ch with
            | some r2 =>
              rw [h1, h2] at ih1
              simpa using ih1
            | none => rw [h1, h2] at ih1; simp at ih1
          | none =>
            cases h2 : getE eid2 ch with
            | some r2 => rw [h1, h2] at ih1; simp at ih1
            | none => simp [h1, h2]
      | false =>
        have ih2 := farL_frame_text eid eid2 v px cs' hne
        rcases hfar2 : farL eid v px cs' with ⟨cs2, b2⟩
        rw [hfar2] at ih2
        show (getE eid2 (Elem.mk a t ch :: cs2)).map Elem.text =
          (getE eid2 (Elem.mk a t ch :: cs')).map Elem.text
        rw [getE, getE]
        by_cases hid2 : (a.lookup "id" == some eid2) = true
        · rw [if_pos hid2, if_pos hid2]
        · rw [if_neg hid2, if_neg hid2]
          cases h2 : getE eid2 ch with
          | some r2 => simp
          | none =>
            simp only at ih2
            exact ih2
termination_by sizeOf cs

theorem find_and_replace_of_none (root : Elem) (eid : String) (v : PyVal)
    (h : getE eid root.children = none) : find_and_replace root eid v = root := by
  rcases root with ⟨a, t, ch⟩
  simp only [Elem.children] at h
  simp [find_and_replace, farL_of_getE_none eid v (a.lookup "x") ch h]

theorem getTextById_far_self (root : Elem) (eid : String) (v : PyVal) (t : String)
    (h : getTextById root eid = some t) :
    getTextById (find_and_replace root eid v) eid = some (pyStr v) := by
  rcases root with ⟨a, t0, ch⟩
  simp only [getTextById, Elem.children, find_and_replace]
  simp only [getTextById, Elem.children] at h
  rcases hg : getE eid ch with _ | e
  · rw [hg] at h; simp at h
  · have hfst := locateL_fst eid (a.lookup "x") ch
    rw [hg] at hfst
    rcases hl : locateL eid (a.lookup "x") ch with _ | r
    · rw [hl] at hfst; simp at hfst
    · rcases r with ⟨e', q⟩
      rw [hl] at hfst
      simp only [Option.map_some'] at hfst
      have he : e' = e := by simpa using hfst
      subst he
      obtain ⟨-, hget⟩ := farL_of_locateL_some eid v (a.lookup "x") ch e' q hl
      rw [hget]
      simp [applyRepl_text]

theorem getXById_far_self (root : Elem) (eid : String) (v : PyVal) (e : Elem) (q : Option String)
    (h : locate root eid = some (e, q)) :
    getXById (find_and_replace root eid v) eid =
      some ((applyRepl v q e).attrs.lookup "x") := by
  rcases root with ⟨a, t0, ch⟩
  simp only [locate, Elem.attrs, Elem.children] at h
  obtain ⟨-, hget⟩ := farL_of_locateL_some eid v (a.lookup "x") ch e q h
  simp only [getXById, Elem.children, find_and_replace]
  rw [hget]
  simp

theorem getTextById_far_frame (root : Elem) (eid eid2 : String) (v : PyVal)
    (hne : eid2 ≠ eid) :
    getTextById (find_and_replace root eid v) eid2 = getTextById root eid2 := by
  rcases root with ⟨a, t0, ch⟩
  simp only [getTextById, Elem.children, find_and_replace]
  exact farL_frame_text eid eid2 v (a.lookup "x") ch hne

theorem ne_append_dots (eid : String) : eid ≠ eid ++ "_dots" := by
  intro h
  have hlen := congrArg String.length h
  rw [String.length_append] at hlen
  have h5 : ("_dots" : String).length = 5 := rfl
  omega

theorem justify_text (root : Elem) (eid : String) (v : PyVal) (len : Nat) (t : String)
    (h : getTextById root eid = some t) :
    getTextById (justify_format root eid v len) eid = some (pyStr (fmtVal v)) := by
  simp only [justify_format]
  rw [getTextById_far_frame _ _ _ _ (ne_append_dots eid)]
  exact getTextById_far_self root eid (fmtVal v) t h

theorem justify_dots (root : Elem) (eid : String) (v : PyVal) (len : Nat) (t : String)
    (h : getTextById root (eid ++ "_dots") = some t) :
    getTextById (justify_format root eid v len) (eid ++ "_dots") =
      some (dotString (justLen len (pyStr (fmtVal v)))) := by
  simp only [justify_format]
  have h1 : getTextById (find_and_replace root eid (fmtVal v)) (eid ++ "_dots") = some t := by
    rw [getTextById_far_frame _ _ _ _ (Ne.symm (ne_append_dots eid))]
    exact h
  have h2 := getTextById_far_self (find_and_replace root eid (fmtVal v)) (eid ++ "_dots")
    (.vStr (dotString (justLen len (pyStr (fmtVal v))))) t h1
  simpa [pyStr] using h2

theorem justify_frame (root : Elem) (eid eid2 : String) (v : PyVal) (len : Nat)
    (hne1 : eid2 ≠ eid) (hne2 : eid2 ≠ eid ++ "_dots") :
    getTextById (justify_format root eid v len) eid2 = getTextById root eid2 := by
  simp only [justify_format]
  rw [getTextById_far_frame _ _ _ _ hne2]
  exact getTextById_far_frame root eid eid2 (fmtVal v) hne1

theorem svg_text_star (root : Elem) (age comm star repo contrib follow : PyVal)
    (loc : PyVal × PyVal × PyVal) (t : String)
    (h : getTextById root "star_data" = some t) :
    getTextById (svg_overwrite root age comm star repo contrib follow loc) "star_data" =
      some (pyStr (fmtVal star)) := by
  simp only [svg_overwrite]
  rw [justify_frame, justify_frame, justify_frame, justify_frame, justify_frame,
    justify_frame]
  · refine justify_text _ _ _ _ t ?_
    rw [justify_frame, justify_frame]
    · exact h
    all_goals decide
  all_goals decide

theorem svg_dots_star (root : Elem) (age comm star repo contrib follow : PyVal)
    (loc : PyVal × PyVal × PyVal) (t : String)
    (h : getTextById root "star_data_dots" = some t) :
    getTextById (svg_overwrite root age comm star repo contrib follow loc) "star_data_dots" =
      some (dotString (justLen 14 (pyStr (fmtVal star)))) := by
  have hd : ("star_data" : String) ++ "_dots" = "star_data_dots" := by decide
  simp only [svg_overwrite]
  rw [justify_frame, justify_frame, justify_frame, justify_frame, justify_frame,
    justify_frame]
  · rw [← hd]
    refine justify_dots _ _ _ _ t ?_
    rw [hd]
    rw [justify_frame, justify_frame]
    · exact h
    all_goals decide
  all_goals decide

theorem svg_text_contrib (root : Elem) (age comm star repo contrib follow : PyVal)
    (loc : PyVal × PyVal × PyVal) (t : String)
    (h : getTextById root "contrib_data" = some t) :
    getTextById (svg_overwrite root age comm star repo contrib follow loc) "contrib_data" =
      some (pyStr (fmtVal contrib)) := by
  simp only [svg_overwrite]
  rw [justify_frame, justify_frame, justify_frame, justify_frame]
  · refine justify_text _ _ _ _ t ?_
    rw [justify_frame, justify_frame, justify_frame, justify_frame]
    · exact h
    all_goals decide
  all_goals decide

theorem dtLt_irrefl (d : Date) : dtLt d d = false := by
  simp [dtLt]

theorem addMonths_exact (b : Date) (N : Nat)
    (hm1 : 1 ≤ b.month) (hm2 : b.month ≤ 12)
    (hd : b.day ≤ daysInMonth (b.year + N) b.month) :
    addMonths b (12 * N) = ⟨b.year + N, b.month, b.day⟩ := by
  rcases b with ⟨y, m, d⟩
  simp only [addMonths]
  simp only at hm1 hm2 hd
  have h1 : (12 * y + (m - 1) + 12 * N) / 12 = y + N := by omega
  have h2 : (12 * y + (m - 1) + 12 * N) % 12 + 1 = m := by omega
  rw [h1, h2]
  rw [Date.mk.injEq]
  refine ⟨rfl, rfl, ?_⟩
  exact Nat.min_eq_left hd

theorem relativedelta_exact_years (b : Date) (N : Nat)
    (hm1 : 1 ≤ b.month) (hm2 : b.month ≤ 12)
    (hd : b.day ≤ daysInMonth (b.year + N) b.month) :
    relativedeltaYMD b ⟨b.year + N, b.month, b.day⟩ = (N, 0, 0) := by
  have hadd := addMonths_exact b N hm1 hm2 hd
  simp only [relativedeltaYMD]
  have hm0 : (12 * (⟨b.year + N, b.month, b.day⟩ : Date).year +
      ((⟨b.year + N, b.month, b.day⟩ : Date).month - 1)) -
      (12 * b.year + (b.month - 1)) = 12 * N := by
    simp only
    omega
  rw [hm0]
  have hadj : monthsAdjust ⟨b.year + N, b.month, b.day⟩ b (12 * N) = 12 * N := by
    cases hN : 12 * N with
    | zero => simp [monthsAdjust]
    | succ k =>
      rw [monthsAdjust]
      rw [← hN, hadd]
      rw [dtLt_irrefl]
      simp [hN]
  rw [hadj, hadd]
  rw [Prod.mk.injEq, Prod.mk.injEq]
  refine ⟨by omega, by omega, by omega⟩

/-- Claim C3: for every document and every identifier that matches no element in
the document, `find_and_replace` returns without raising any error and leaves
every element of the document unchanged (no text, attribute, or structure
modification) — the result is the very same tree. -/
theorem claim_missing_id_noop (root : Elem) (eid : String) (v : PyVal)
    (h : getE eid root.children = none) :
    find_and_replace root eid v = root :=
  find_and_replace_of_none root eid v h

/-- Witness for C3 at a concrete document without the identifier. -/
theorem claim_missing_id_noop_witness :
    getE "nope" (Elem.mk [] "" [Elem.mk [("id", "a")] "t" []]).children = none ∧
    find_and_replace (Elem.mk [] "" [Elem.mk [("id", "a")] "t" []]) "nope" (PyVal.vStr "x") =
      Elem.mk [] "" [Elem.mk [("id", "a")] "t" []] := by
  have h : getE "nope" (Elem.mk [] "" [Elem.mk [("id", "a")] "t" []]).children = none := by
    simp [getE, Elem.children, List.lookup]
  exact ⟨h, claim_missing_id_noop _ _ _ h⟩

/-- Claim C4: for every fetch call (`user_getter`, `follower_getter`,
`graph_repos_stars`, which all report through `simple_request` under their own
name), a non-200 response makes the call raise an error whose message contains
the call's name, the status code, and the response body, and no response is
returned. -/
theorem claim_fetch_error (fname : String) (r : Response)
    (_hname : fname = "user_getter" ∨ fname = "follower_getter" ∨ fname = "graph_repos_stars")
    (hst : r.status_code ≠ 200) :
    ∃ msg : String, simple_request fname r = Except.error msg ∧
      (∃ p q, msg = p ++ fname ++ q) ∧
      (∃ p q, msg = p ++ toString r.status_code ++ q) ∧
      (∃ p q, msg = p ++ r.text ++ q) ∧
      ∀ res : Response, simple_request fname r ≠ Except.ok res := by
  have h200 : (r.status_code == 200) = false := by simpa using hst
  refine ⟨fname ++ " failed → " ++ toString r.status_code ++ ": " ++ r.text, ?_, ?_, ?_, ?_, ?_⟩
  · simp [simple_request, h200]
  · exact ⟨"", " failed → " ++ toString r.status_code ++ ": " ++ r.text,
      by simp [String.append_assoc]⟩
  · exact ⟨fname ++ " failed → ", ": " ++ r.text, by simp [String.append_assoc]⟩
  · exact ⟨fname ++ " failed → " ++ toString r.status_code ++ ": ", "",
      by simp [String.append_assoc]⟩
  · intro res hcontra
    simp [simple_request, h200] at hcontra

/-- Witness for C4 at a concrete failing response. -/
theorem claim_fetch_error_witness :
    ∃ msg : String, simple_request "user_getter" ⟨404, "not found"⟩ = Except.error msg ∧
      (∃ p q, msg = p ++ "user_getter" ++ q) ∧
      (∃ p q, msg = p ++ toString (404 : Nat) ++ q) ∧
      (∃ p q, msg = p ++ "not found" ++ q) ∧
      ∀ res : Response, simple_request "user_getter" ⟨404, "not found"⟩ ≠ Except.ok res :=
  claim_fetch_error "user_getter" ⟨404, "not found"⟩ (Or.inl rfl) (by decide)

/-- Claim C6: `graph_repos_stars` in `stars` mode returns the sum of the
per-edge stargazer counts of the single returned page, and the `__main__`
call site consumes only the page fetched with a null cursor — two backends
agreeing on the null-cursor page yield the same `star_data`, whatever
`hasNextPage` or the later pages say. -/
theorem claim_stars_single_page (ownerPages : Option String → RepoPage) :
    main_star_data ownerPages = ((ownerPages none).stargazerCounts).sum ∧
    ∀ pages2 : Option String → RepoPage, pages2 none = ownerPages none →
      main_star_data pages2 = main_star_data ownerPages := by
  constructor
  · simp [main_star_data, graph_repos_stars]
  · intro p2 hp
    simp [main_star_data, graph_repos_stars, hp]

/-- Witness for C6: a backend whose second page would add more stars still
contributes only the first page. -/
theorem claim_stars_single_page_witness :
    main_star_data
      (fun c => if c = none then ⟨3, [1, 2, 3], true, some "cur"⟩ else ⟨3, [100], false, none⟩) =
      6 := by
  have h := (claim_stars_single_page
    (fun c => if c = none then ⟨3, [1, 2, 3], true, some "cur"⟩ else ⟨3, [100], false, none⟩)).1
  simpa using h

/-- Claim C8: for every integer value passed to `justify_format`, the text
written under the identifier is the integer formatted with thousands
separators; in particular 12345 renders as "12,345". -/
theorem claim_int_separators (root : Elem) (eid : String) (n : Int) (len : Nat) (t : String)
    (h : getTextById root eid = some t) :
    getTextById (justify_format root eid (PyVal.vInt n) len) eid = some (intComma n) ∧
    intComma 12345 = "12,345" := by
  constructor
  · have hj := justify_text root eid (PyVal.vInt n) len t h
    simpa [fmtVal, pyStr] using hj
  · decide

/-- Witness for C8 at a concrete document and value. -/
theorem claim_int_separators_witness :
    getTextById (justify_format (Elem.mk [] "" [Elem.mk [("id", "v")] "" []]) "v"
      (PyVal.vInt 12345) 0) "v" = some (intComma 12345) ∧
    intComma 12345 = "12,345" := by
  have h : getTextById (Elem.mk [] "" [Elem.mk [("id", "v")] "" []]) "v" = some "" := by
    simp [getTextById, getE, Elem.children, List.lookup, Elem.text]
  exact claim_int_separators _ _ 12345 0 "" h

/-- Claim C10: a value that is not an int (the age string, the lines-of-code
strings, the contributed-repos tuple) is written verbatim — no thousands
separators — and the padding figure is computed from the length of its plain
string form. -/
theorem claim_non_int_verbatim (root : Elem) (eid : String) (v : PyVal) (len : Nat) (t : String)
    (hv : ∀ n : Int, v ≠ PyVal.vInt n) (h : getTextById root eid = some t) :
    getTextById (justify_format root eid v len) eid = some (pyStr v) ∧
    ∀ t2, getTextById root (eid ++ "_dots") = some t2 →
      getTextById (justify_format root eid v len) (eid ++ "_dots") =
        some (dotString (justLen len (pyStr v))) := by
  have hfmt : fmtVal v = v := by
    cases v with
    | vInt n => exact absurd rfl (hv n)
    | vStr s => rfl
    | vPair a b => rfl
  constructor
  · have hj := justify_text root eid v len t h
    rwa [hfmt] at hj
  · intro t2 h2
    have hj := justify_dots root eid v len t2 h2
    rwa [hfmt] at hj

/-- Witness for C10 with the age-like string "25 years" and width 10. -/
theorem claim_non_int_verbatim_witness :
    getTextById (justify_format
      (Elem.mk [] "" [Elem.mk [("id", "age_data")] "" [], Elem.mk [("id", "age_data_dots")] "" []])
      "age_data" (PyVal.vStr "25 years") 10) "age_data" = some (pyStr (PyVal.vStr "25 years")) ∧
    getTextById (justify_format
      (Elem.mk [] "" [Elem.mk [("id", "age_data")] "" [], Elem.mk [("id", "age_data_dots")] "" []])
      "age_data" (PyVal.vStr "25 years") 10) ("age_data" ++ "_dots") =
      some (dotString (justLen 10 (pyStr (PyVal.vStr "25 years")))) := by
  have hv : ∀ n : Int, PyVal.vStr "25 years" ≠ PyVal.vInt n := by intro n hc; cases hc
  have h : getTextById
      (Elem.mk [] "" [Elem.mk [("id", "age_data")] "" [], Elem.mk [("id", "age_data_dots")] "" []])
      "age_data" = some "" := by
    simp [getTextById, getE, Elem.children, List.lookup, Elem.text]
  have h2 : getTextById
      (Elem.mk [] "" [Elem.mk [("id", "age_data")] "" [], Elem.mk [("id", "age_data_dots")] "" []])
      ("age_data" ++ "_dots") = some "" := by
    simp [getTextById, getE, Elem.children, List.lookup, Elem.text]
  obtain ⟨h1', h2'⟩ := claim_non_int_verbatim _ "age_data" (PyVal.vStr "25 years") 10 "" hv h
  exact ⟨h1', h2' "" h2⟩

/-- Two-element template used by the C1 counterexample. -/
def docC1 : Elem :=
  .mk [] "" [.mk [("id", "d")] "" [], .mk [("id", "d_dots")] "" []]

/-- Claim C1 counterexample: with value `1234` (an int) and `pad_width = 6`,
the claim's formula `max(0, pad_width - len(str(value)))` gives
`6 - len("1234") = 2` and demands the dot-leader `". "`, but the code computes
the padding figure from the formatted text "1,234" (length 5), giving 1 and
the dot-leader `" "`. -/
theorem claim_dot_leader_cex :
    getTextById (justify_format docC1 "d" (PyVal.vInt 1234) 6) "d_dots" = some " " ∧
    dotString (justLen 6 (pyStr (PyVal.vInt 1234))) = ". " ∧
    (" " : String) ≠ ". " := by
  refine ⟨?_, by decide, by decide⟩
  have h : getTextById docC1 ("d" ++ "_dots") = some "" := by
    simp [docC1, getTextById, getE, Elem.children, List.lookup, Elem.text]
  have hj := justify_dots docC1 "d" (PyVal.vInt 1234) 6 "" h
  rw [show ("d" : String) ++ "_dots" = "d_dots" from by decide] at hj
  rw [hj]
  rw [show dotString (justLen 6 (pyStr (fmtVal (PyVal.vInt 1234)))) = " " from by decide]

/-- Claim C1 (amended): `justify_format` computes the padding figure as
`max(0, pad_width - len(formatted))` where `formatted` is the
thousands-separated rendering for ints and `str(value)` otherwise, and writes
to `<id>_dots` the dot-leader of the fixed lookup (0 → "", 1 → " ",
2 → ". ", n ≥ 3 → " " ++ "."*n ++ " "); when `pad_width = 0` or the formatted
length is at least `pad_width` the dot-leader is empty. -/
theorem claim_dot_leader_amended (root : Elem) (eid : String) (v : PyVal) (len : Nat)
    (t : String) (h : getTextById root (eid ++ "_dots") = some t) :
    getTextById (justify_format root eid v len) (eid ++ "_dots") =
      some (dotString (justLen len (pyStr (fmtVal v)))) ∧
    dotString 0 = "" ∧ dotString 1 = " " ∧ dotString 2 = ". " ∧
    (∀ n, 3 ≤ n → dotString n = " " ++ String.mk (List.replicate n '.') ++ " ") ∧
    (len = 0 ∨ (pyStr (fmtVal v)).length ≥ len → justLen len (pyStr (fmtVal v)) = 0) := by
  refine ⟨justify_dots root eid v len t h, rfl, rfl, rfl, ?_, ?_⟩
  · intro n h3
    obtain ⟨k, rfl⟩ : ∃ k, n = k + 3 := ⟨n - 3, by omega⟩
    rfl
  · intro hc
    simp only [justLen]
    rcases hc with hc | hc <;> omega

/-- Witness for the amended C1 at a concrete document, value and width. -/
theorem claim_dot_leader_amended_witness :
    getTextById (justify_format docC1 "d" (PyVal.vInt 1234) 6) ("d" ++ "_dots") =
      some (dotString (justLen 6 (pyStr (fmtVal (PyVal.vInt 1234))))) := by
  have h : getTextById docC1 ("d" ++ "_dots") = some "" := by
    simp [docC1, getTextById, getE, Elem.children, List.lookup, Elem.text]
  exact (claim_dot_leader_amended docC1 "d" (PyVal.vInt 1234) 6 "" h).1

/-- Claim C2: a document containing elements `star_data` and `star_data_dots`,
rendered with star count 1234 (pad width 14 is fixed in `svg_overwrite`), ends
with `star_data` text "1,234" and `star_data_dots` text " ......... "
(one space, nine dots, one space). -/
theorem claim_star_render (root : Elem) (age comm repo contrib follow : PyVal)
    (loc : PyVal × PyVal × PyVal) (t1 t2 : String)
    (h1 : getTextById root "star_data" = some t1)
    (h2 : getTextById root "star_data_dots" = some t2) :
    getTextById (svg_overwrite root age comm (PyVal.vInt 1234) repo contrib follow loc)
      "star_data" = some "1,234" ∧
    getTextById (svg_overwrite root age comm (PyVal.vInt 1234) repo contrib follow loc)
      "star_data_dots" = some " ......... " := by
  constructor
  · have hs := svg_text_star root age comm (PyVal.vInt 1234) repo contrib follow loc t1 h1
    rwa [show pyStr (fmtVal (PyVal.vInt 1234)) = "1,234" from by decide] at hs
  · have hs := svg_dots_star root age comm (PyVal.vInt 1234) repo contrib follow loc t2 h2
    rwa [show dotString (justLen 14 (pyStr (fmtVal (PyVal.vInt 1234)))) = " ......... "
      from by decide] at hs

/-- Template with the two star elements, used by the C2 witness. -/
def docC2 : Elem :=
  .mk [] "" [.mk [("id", "star_data")] "" [], .mk [("id", "star_data_dots")] "" []]

/-- Witness for C2 at a concrete template. -/
theorem claim_star_render_witness :
    getTextById (svg_overwrite docC2 (PyVal.vStr "a") (PyVal.vInt 0) (PyVal.vInt 1234)
      (PyVal.vInt 0) (PyVal.vStr "c") (PyVal.vInt 0)
      (PyVal.vStr "0", PyVal.vStr "0", PyVal.vStr "0")) "star_data" = some "1,234" ∧
    getTextById (svg_overwrite docC2 (PyVal.vStr "a") (PyVal.vInt 0) (PyVal.vInt 1234)
      (PyVal.vInt 0) (PyVal.vStr "c") (PyVal.vInt 0)
      (PyVal.vStr "0", PyVal.vStr "0", PyVal.vStr "0")) "star_data_dots" =
      some " ......... " := by
  have h1 : getTextById docC2 "star_data" = some "" := by
    simp [docC2, getTextById, getE, Elem.children, List.lookup, Elem.text]
  have h2 : getTextById docC2 "star_data_dots" = some "" := by
    simp [docC2, getTextById, getE, Elem.children, List.lookup, Elem.text]
  exact claim_star_render docC2 _ _ _ _ _ _ "" "" h1 h2

/-- Document for the C7 counterexample: the matched element's parent declares
`x=""` (an empty, hence Python-falsy, offset). -/
def docC7 : Elem :=
  .mk [] "" [.mk [("x", "")] "g" [.mk [("id", "c")] "old" []]]

/-- Claim C7 counterexample: in `docC7` the parent of the matched element
declares the `x` attribute (with value ""), and `find_and_replace` does set the
text, but it does not copy the attribute onto the element — the element ends
with no `x` attribute at all, not `x=""` — because `if parent_x:` is false for
an empty string. -/
theorem claim_parent_x_cex :
    locate docC7 "c" = some (Elem.mk [("id", "c")] "old" [], some "") ∧
    getTextById (find_and_replace docC7 "c" (PyVal.vStr "new")) "c" = some "new" ∧
    getXById (find_and_replace docC7 "c" (PyVal.vStr "new")) "c" = some none ∧
    some (none : Option String) ≠ some (some "") := by
  refine ⟨?_, ?_, ?_, by simp⟩
  · simp [docC7, locate, locateL, Elem.children, Elem.attrs, List.lookup]
  · simp [docC7, getTextById, find_and_replace, farL, applyRepl, getE,
      Elem.children, Elem.attrs, Elem.text, List.lookup, pyStr]
  · simp [docC7, getXById, find_and_replace, farL, applyRepl, getE,
      Elem.children, Elem.attrs, List.lookup, pyStr]

/-- Claim C7 (amended): `find_and_replace` on a matched identifier sets the
element's text to the stringified value, and copies the parent's `x` attribute
onto the element whenever the parent declares a non-empty `x` (Python's
truthiness test skips an empty offset). -/
theorem claim_parent_x_amended (root : Elem) (eid : String) (v : PyVal) (e : Elem)
    (px : Option String) (h : locate root eid = some (e, px)) :
    getTextById (find_and_replace root eid v) eid = some (pyStr v) ∧
    ∀ s, px = some s → s ≠ "" →
      getXById (find_and_replace root eid v) eid = some (some s) := by
  constructor
  · have htext : getTextById root eid = some e.text := by
      rcases root with ⟨a, t0, ch⟩
      simp only [locate, Elem.attrs, Elem.children] at h
      have hfst := locateL_fst eid (a.lookup "x") ch
      rw [h] at hfst
      simp only [getTextById, Elem.children]
      rw [← hfst]
      simp
    exact getTextById_far_self root eid v e.text htext
  · intro s hs hne
    subst hs
    have hx := getXById_far_self root eid v e (some s) h
    rw [applyRepl_lookup_x v s e hne] at hx
    exact hx

/-- Witness for the amended C7: parent with non-empty `x="42"`. -/
theorem claim_parent_x_amended_witness :
    getTextById (find_and_replace
      (Elem.mk [] "" [Elem.mk [("x", "42")] "g" [Elem.mk [("id", "c")] "old" []]])
      "c" (PyVal.vStr "new")) "c" = some (pyStr (PyVal.vStr "new")) ∧
    getXById (find_and_replace
      (Elem.mk [] "" [Elem.mk [("x", "42")] "g" [Elem.mk [("id", "c")] "old" []]])
      "c" (PyVal.vStr "new")) "c" = some (some "42") := by
  have h : locate (Elem.mk [] "" [Elem.mk [("x", "42")] "g" [Elem.mk [("id", "c")] "old" []]])
      "c" = some (Elem.mk [("id", "c")] "old" [], some "42") := by
    simp [locate, locateL, Elem.children, Elem.attrs, List.lookup]
  obtain ⟨h1, h2⟩ := claim_parent_x_amended _ "c" (PyVal.vStr "new") _ _ h
  exact ⟨h1, h2 "42" rfl (by decide)⟩

/-- Claim C9: the chained assignment `contrib_data=_=graph_repos_stars(...),0`
binds the pair `(count, 0)` — not the scalar count — so the value passed to
`svg_overwrite` is a tuple, and the text written to the `contrib_data` element
is the stringified pair "(count, 0)" rather than a formatted count. -/
theorem claim_contrib_pair (ownerPages allPages : Option String → RepoPage)
    (followers : Nat) (age : String) (root : Elem) (t : String)
    (h : getTextById root "contrib_data" = some t) :
    main_contrib_data allPages =
      PyVal.vPair (PyVal.vInt (graph_repos_stars allPages "repos")) (PyVal.vInt 0) ∧
    (∀ k : Int, main_contrib_data allPages ≠ PyVal.vInt k) ∧
    getTextById (main_render ownerPages allPages followers age root) "contrib_data" =
      some ("(" ++ toString ((graph_repos_stars allPages "repos" : Nat) : Int) ++ ", 0)") := by
  refine ⟨rfl, ?_, ?_⟩
  · intro k hcontra
    simp [main_contrib_data] at hcontra
  · have hs := svg_text_contrib root (.vStr age) (.vInt 0)
      (.vInt (main_star_data ownerPages)) (.vInt (main_repo_data ownerPages))
      (main_contrib_data allPages) (.vInt followers)
      (.vStr "0", .vStr "0", .vStr "0") t h
    rw [main_render]
    rw [hs]
    have hpy : pyStr (fmtVal (main_contrib_data allPages)) =
        "(" ++ toString ((graph_repos_stars allPages "repos" : Nat) : Int) ++ ", 0)" := by
      simp only [main_contrib_data, fmtVal, pyStr, pyRepr]
      simp only [String.append_assoc]
      rw [show toString (0 : Int) = "0" from by decide]
      rw [show (", " : String) ++ ("0" ++ ")") = ", 0)" from by decide]
    rw [hpy]

/-- Single-element template for the C9 witness. -/
def docC9 : Elem :=
  .mk [] "" [.mk [("id", "contrib_data")] "" []]

/-- Witness for C9: a backend reporting 5 contributed repositories makes the
pipeline write "(5, 0)". -/
theorem claim_contrib_pair_witness :
    getTextById (main_render (fun _ => ⟨0, [], false, none⟩) (fun _ => ⟨5, [], false, none⟩)
      0 "a" docC9) "contrib_data" = some "(5, 0)" := by
  have h : getTextById docC9 "contrib_data" = some "" := by
    simp [docC9, getTextById, getE, Elem.children, List.lookup, Elem.text]
  have hc := (claim_contrib_pair (fun _ => ⟨0, [], false, none⟩) (fun _ => ⟨5, [], false, none⟩)
    0 "a" docC9 "" h).2.2
  rw [hc]
  have h5 : graph_repos_stars (fun _ => (⟨5, [], false, none⟩ : RepoPage)) "repos" = 5 := by
    simp [graph_repos_stars]
  rw [h5]
  decide

/-- Claim C5: the age string always renders the calendar difference as
years, months and days, each unit taking the plural suffix "s" exactly when
its value is not 1; and for a birth date exactly N full years before "now"
(same month and day, N years later, a valid date) the year component equals N
with the months and days components zero, pluralised unless N = 1. -/
theorem claim_age_string (bday now : Date) (N : Nat)
    (hnow : now = ⟨bday.year + N, bday.month, bday.day⟩)
    (hval : validDate now = true) :
    (∀ b n : Date, uptime_string b n =
      toString (relativedeltaYMD b n).1 ++ " year" ++
        (if (relativedeltaYMD b n).1 = 1 then "" else "s") ++ ", " ++
      toString (relativedeltaYMD b n).2.1 ++ " month" ++
        (if (relativedeltaYMD b n).2.1 = 1 then "" else "s") ++ ", " ++
      toString (relativedeltaYMD b n).2.2 ++ " day" ++
        (if (relativedeltaYMD b n).2.2 = 1 then "" else "s")) ∧
    relativedeltaYMD bday now = (N, 0, 0) ∧
    uptime_string bday now =
      toString N ++ " year" ++ (if N = 1 then "" else "s") ++ ", 0 months, 0 days" := by
  have hexact : relativedeltaYMD bday now = (N, 0, 0) := by
    subst hnow
    simp only [validDate, Bool.and_eq_true, decide_eq_true_eq] at hval
    exact relativedelta_exact_years bday N (by omega) (by omega) (by omega)
  refine ⟨fun b n => rfl, hexact, ?_⟩
  rw [uptime_string, hexact]
  simp only [pluralS]
  simp only [String.append_assoc]
  rw [show (if (0 : Nat) = 1 then "" else "s") = "s" from by norm_num]
  rw [show toString (0 : Nat) = "0" from rfl]
  rw [show (", " : String) ++ ("0" ++ (" month" ++ ("s" ++ (", " ++ ("0" ++ (" day" ++ "s"))))))
      = ", 0 months, 0 days" from by decide]

/-- Witness for C5: birthday 2004-04-04 and now 2006-04-04 give exactly
"2 years, 0 months, 0 days". -/
theorem claim_age_string_witness :
    relativedeltaYMD ⟨2004, 4, 4⟩ ⟨2006, 4, 4⟩ = (2, 0, 0) ∧
    uptime_string ⟨2004, 4, 4⟩ ⟨2006, 4, 4⟩ = "2 years, 0 months, 0 days" := by
  have h := claim_age_string ⟨2004, 4, 4⟩ ⟨2006, 4, 4⟩ 2 rfl (by decide)
  refine ⟨h.2.1, ?_⟩
  rw [h.2.2]
  decide
